import Mathlib

/-!
Shallow embedding of the core of `src/server.py` (metabase-mcp):
the MBQL query builder (`execute_mbql_query` / `create_mbql_card`),
the metric wrapper (`create_metric` / `update_metric`),
metric discovery (`search_metrics_for_table`),
and the dashboard composition engine
(`remove_card_from_dashboard` / `copy_dashboard_tab`).

JSON documents are modelled by `MVal`; Python dicts that the code builds
key-by-key are modelled as association lists in insertion order; a missing
dict key read with `.get` is modelled by `Option` with the source's default
applied at the read site.  Python truthiness tests (`if xs:`) are modelled
explicitly (`none`, the empty list/map and `0` are falsy).
-/

/-- A JSON-shaped value: the semi-structured trees the server passes around.
Maps are association lists in insertion order. -/
inductive MVal where
  | num : Int → MVal
  | str : String → MVal
  | bool : Bool → MVal
  | null : MVal
  | list : List MVal → MVal
  | map : List (String × MVal) → MVal
deriving Repr

/-- Python truthiness of an optional list argument (`if xs:`):
`None` and `[]` are falsy. -/
def truthyList {α : Type} (o : Option (List α)) : Bool :=
  match o with
  | some l => !l.isEmpty
  | none => false

/-- Python truthiness of an optional int argument (`if n:`): `None` and `0`
are falsy. -/
def truthyInt (o : Option Int) : Bool :=
  match o with
  | some n => decide (n ≠ 0)
  | none => false

/-- `mbql_query` construction of `execute_mbql_query`
(src/server.py lines 562-596): a dict seeded with `source-table` to which
each truthy optional input appends its key, in source order. -/
def execute_mbql_query (source_table_id : Int)
    (aggregations breakouts : Option (List MVal))
    (filters : Option (List MVal))
    (order_by : Option (List MVal))
    (limit : Option Int)
    (expressions : Option (List (String × MVal)))
    (joins : Option (List MVal))
    (fields : Option (List MVal)) : List (String × MVal) :=
  [("source-table", MVal.num source_table_id)]
  ++ (if truthyList aggregations then [("aggregation", MVal.list (aggregations.getD []))] else [])
  ++ (if truthyList breakouts then [("breakout", MVal.list (breakouts.getD []))] else [])
  ++ (if truthyList filters then [("filter", MVal.list (filters.getD []))] else [])
  ++ (if truthyList order_by then [("order-by", MVal.list (order_by.getD []))] else [])
  ++ (if truthyInt limit then [("limit", MVal.num (limit.getD 0))] else [])
  ++ (if truthyList expressions then [("expressions", MVal.map (expressions.getD []))] else [])
  ++ (if truthyList joins then [("joins", MVal.list (joins.getD []))] else [])
  ++ (if truthyList fields then [("fields", MVal.list (fields.getD []))] else [])

/-- `mbql_query` construction of `create_mbql_card`
(src/server.py lines 960-994): a dict seeded with `source-table` to which
each truthy optional input appends its key, in source order. -/
def create_mbql_card (source_table_id : Int)
    (aggregations breakouts : Option (List MVal))
    (filters : Option (List MVal))
    (order_by : Option (List MVal))
    (limit : Option Int)
    (expressions : Option (List (String × MVal)))
    (joins : Option (List MVal))
    (fields : Option (List MVal)) : List (String × MVal) :=
  [("source-table", MVal.num source_table_id)]
  ++ (if truthyList aggregations then [("aggregation", MVal.list (aggregations.getD []))] else [])
  ++ (if truthyList breakouts then [("breakout", MVal.list (breakouts.getD []))] else [])
  ++ (if truthyList filters then [("filter", MVal.list (filters.getD []))] else [])
  ++ (if truthyList order_by then [("order-by", MVal.list (order_by.getD []))] else [])
  ++ (if truthyInt limit then [("limit", MVal.num (limit.getD 0))] else [])
  ++ (if truthyList expressions then [("expressions", MVal.map (expressions.getD []))] else [])
  ++ (if truthyList joins then [("joins", MVal.list (joins.getD []))] else [])
  ++ (if truthyList fields then [("fields", MVal.list (fields.getD []))] else [])

/-- Python dict assignment `d[k] = v`: replace the value in place when the
key exists (keeping its position), otherwise append the pair. -/
def setKey (m : List (String × MVal)) (k : String) (v : MVal) :
    List (String × MVal) :=
  if m.any (fun p => p.1 == k) then
    m.map (fun p => if p.1 == k then (p.1, v) else p)
  else m ++ [(k, v)]

/-- Python equality test of a value against a string literal
(`existing_agg[0] == "aggregation-options"`). -/
def MVal.isStr : MVal → String → Bool
  | .str s, t => s == t
  | _, _ => false

/-- Python truthiness of a JSON-shaped value. -/
def pyTruthyVal : MVal → Bool
  | .num n => decide (n ≠ 0)
  | .str s => !(s == "")
  | .bool b => b
  | .null => false
  | .list l => !l.isEmpty
  | .map m => !m.isEmpty

/-- The `named_aggregation` wrapper of `create_metric`
(src/server.py lines 1691-1695): tag the raw aggregation clause with
`aggregation-options` and a name/display-name options map. -/
def named_aggregation (aggregation : MVal) (name : String) : MVal :=
  .list [.str "aggregation-options", aggregation,
         .map [("name", .str name), ("display-name", .str name)]]

/-- The name-only rename branch of `update_metric`
(src/server.py lines 1808-1821), acting on the first stored aggregation
clause (`query.get("aggregation", [[]])[0]`).  `none` models a Python
exception (indexing a value that supports neither list indexing at 2 nor
dict assignment); a falsy clause takes neither branch, leaving the stored
aggregation unchanged. -/
def update_metric_rename (existing_agg : MVal) (effective_name : String) :
    Option MVal :=
  if pyTruthyVal existing_agg then
    match existing_agg with
    | .list (tag :: rest) =>
        if tag.isStr "aggregation-options" then
          match rest with
          | inner :: .map opts :: tail =>
              some (.list (tag :: inner ::
                .map (setKey (setKey opts "name" (.str effective_name))
                  "display-name" (.str effective_name)) :: tail))
          | _ => none
        else some (named_aggregation (.list (tag :: rest)) effective_name)
    | .str s => some (named_aggregation (.str s) effective_name)
    | _ => none
  else some existing_agg

/-- The fields of a stored MBQL query that `search_metrics_for_table`
reads; `none` models a missing key. -/
structure MQuery where
  source_table : Option Int := none
  aggregation : Option (List (List MVal)) := none
  filter : Option MVal := none

/-- The fields of a card's `dataset_query` that the discovery code reads. -/
structure DatasetQuery where
  database : Option Int := none
  query : Option MQuery := none

/-- The fields of a saved card that `search_metrics_for_table` reads. -/
structure Card where
  type : Option String := none
  id : Option Int := none
  name : Option String := none
  description : Option String := none
  collection_id : Option Int := none
  dataset_query : Option DatasetQuery := none

/-- One entry of the list `search_metrics_for_table` returns. -/
structure MetricSummary where
  id : Option Int
  name : Option String
  description : Option String
  aggregation_type : MVal
  has_filter : Bool
  collection_id : Option Int

/-- Aggregation-operator extraction of `search_metrics_for_table`
(src/server.py lines 1578-1579): the first element of the first
aggregation clause, `"unknown"` when the aggregation is absent, empty, or
its first clause is empty. -/
def aggregation_type (query : MQuery) : MVal :=
  match query.aggregation with
  | some (c :: _) =>
      match c with
      | a :: _ => a
      | [] => MVal.str "unknown"
  | _ => MVal.str "unknown"

/-- The record built for one matching metric
(src/server.py lines 1581-1588). -/
def metric_summary (metric : Card) (query : MQuery) : MetricSummary :=
  { id := metric.id, name := metric.name, description := metric.description,
    aggregation_type := aggregation_type query,
    has_filter := query.filter.isSome,
    collection_id := metric.collection_id }

/-- The body of the matching loop of `search_metrics_for_table`
(src/server.py lines 1566-1588): keep the metric when its stored
source-table equals `table_id`, unless a truthy `database_id` is given and
the stored database differs. -/
def search_step (table_id : Int) (database_id : Option Int)
    (matching_metrics : List MetricSummary) (metric : Card) :
    List MetricSummary :=
  let dataset_query := metric.dataset_query.getD {}
  let query := dataset_query.query.getD {}
  if query.source_table == some table_id then
    if truthyInt database_id && dataset_query.database != database_id then
      matching_metrics
    else
      matching_metrics ++ [metric_summary metric query]
  else matching_metrics

/-- `search_metrics_for_table` (src/server.py lines 1561-1588): filter the
remote card list to metrics, keep those whose stored source-table matches
(and, when `database_id` is truthy, whose stored database matches), and
summarize each. -/
def search_metrics_for_table (all_cards : List Card) (table_id : Int)
    (database_id : Option Int) : List MetricSummary :=
  let metrics := all_cards.filter (fun c => c.type == some "metric")
  metrics.foldl (search_step table_id database_id) []

/-- A parameter mapping on a dashcard; `payload` stands for the fields that
`mapping.copy()` passes through untouched. -/
structure PMapping where
  parameter_id : Option String := none
  card_id : Option Int := none
  payload : Nat := 0
deriving DecidableEq

/-- A dashboard parameter (filter); `payload` stands for the fields that
`param.copy()` and the dict-splat copy preserve unchanged. -/
structure Param where
  id : Option String := none
  payload : Nat := 0
deriving DecidableEq

/-- A dashboard tab: the two fields the composition code reads/writes. -/
structure Tab where
  id : Option Int := none
  name : Option String := none
deriving DecidableEq

/-- A dashcard (card placement): the fields the composition code reads.
`none` models a missing key, with the source's `.get` default applied at
each read site. -/
structure Dashcard where
  id : Option Int := none
  card_id : Option Int := none
  dashboard_tab_id : Option Int := none
  row : Option Int := none
  col : Option Int := none
  size_x : Option Int := none
  size_y : Option Int := none
  visualization_settings : Option (List (String × MVal)) := none
  parameter_mappings : Option (List PMapping) := none

/-- A fetched dashboard representation, with the source's list defaults
(`dash.get("tabs", [])` etc.) already applied. -/
structure Dashboard where
  tabs : List Tab := []
  dashcards : List Dashcard := []
  parameters : List Param := []

/-- `remove_card_from_dashboard` (src/server.py lines 1341-1354): the list
written back, or a not-found error (raised before any write) when
filtering removed nothing. -/
def remove_card_from_dashboard (existing_dashcards : List Dashcard)
    (dashcard_id : Int) : Except String (List Dashcard) :=
  let filtered_dashcards :=
    existing_dashcards.filter (fun dc => !(dc.id == some dashcard_id))
  if filtered_dashcards.length = existing_dashcards.length then
    Except.error "Dashcard not found on dashboard"
  else Except.ok filtered_dashcards

/-- Python `min(l, default=d)`. -/
def pyMin (l : List Int) (d : Int) : Int :=
  match l with
  | [] => d
  | x :: xs => xs.foldl min x

/-- New tab id allocation of `copy_dashboard_tab`
(src/server.py lines 1916-1917). -/
def new_tab_id (target_tabs : List Tab) : Int :=
  min (pyMin (target_tabs.map (fun t => t.id.getD 0)) 0 - 1) (-1)

/-- Seed of the new dashcard id sequence of `copy_dashboard_tab`
(src/server.py lines 1961-1962). -/
def next_dc_id (target_dashcards : List Dashcard) : Int :=
  min (pyMin (target_dashcards.map (fun dc => dc.id.getD 0)) 0 - 1) (-1)

/-- The set of parameter ids referenced by the selected dashcards
(src/server.py lines 1927-1930), as a list whose membership and emptiness
agree with the Python set. -/
def used_param_ids (tab_dashcards : List Dashcard) : List (Option String) :=
  tab_dashcards.flatMap
    (fun dc => (dc.parameter_mappings.getD []).map (fun m => m.parameter_id))

/-- Python `f"{x}"` on an optional string. -/
def pyStrOpt (o : Option String) : String :=
  match o with
  | some s => s
  | none => "None"

/-- The `while new_param_id in existing_param_ids` loop of
`copy_dashboard_tab` (src/server.py lines 1946-1948), with enough fuel
that the fallback branch is unreachable: candidates at distinct counters
are distinct, so within `existing.length + 1` tries one avoids the set. -/
def fresh_param_id_loop (base : String) (existing_param_ids : List (Option String)) :
    Nat → Nat → String
  | 0, counter => base ++ "_copy_" ++ toString counter
  | fuel + 1, counter =>
      let cand := base ++ "_copy_" ++ toString counter
      if some cand ∈ existing_param_ids then
        fresh_param_id_loop base existing_param_ids fuel (counter + 1)
      else cand

/-- Fresh-identifier generation of `copy_dashboard_tab`
(src/server.py lines 1944-1948): try `base_copy`, then `base_copy_1`,
`base_copy_2`, … against the (fixed) set of target parameter ids. -/
def fresh_param_id (base : String) (existing_param_ids : List (Option String)) :
    String :=
  let first := base ++ "_copy"
  if some first ∈ existing_param_ids then
    fresh_param_id_loop base existing_param_ids (existing_param_ids.length + 1) 1
  else first

/-- The parameter-copying loop of `copy_dashboard_tab`
(src/server.py lines 1940-1957): returns `(params_to_add, param_id_mapping)`.
`existing_param_ids` is computed once from the target and never extended
inside the loop, exactly as in the source. -/
def copy_params (source_params : List Param) (used : List (Option String))
    (existing_param_ids : List (Option String)) :
    List Param × List (Option String × String) :=
  source_params.foldl (fun acc param =>
    if param.id ∈ used then
      if param.id ∈ existing_param_ids then
        let npid := fresh_param_id (pyStrOpt param.id) existing_param_ids
        (acc.1 ++ [{ param with id := some npid }], acc.2 ++ [(param.id, npid)])
      else (acc.1 ++ [param], acc.2)
    else acc) ([], [])

/-- Python `old_param_id in param_id_mapping` / `param_id_mapping[old_param_id]`. -/
def lookup_param_id (param_id_mapping : List (Option String × String))
    (k : Option String) : Option String :=
  (param_id_mapping.find? (fun p => p.1 == k)).map (fun p => p.2)

/-- The per-dashcard mapping rewrite of `copy_dashboard_tab`
(src/server.py lines 1978-1987): rewrite the parameter id through the
old-to-new mapping when present, and re-pin `card_id` to the dashcard's
own card reference. -/
def copy_mappings (param_id_mapping : List (Option String × String))
    (dc_card_id : Option Int) (mappings : List PMapping) : List PMapping :=
  mappings.map (fun mapping =>
    let m1 := match lookup_param_id param_id_mapping mapping.parameter_id with
      | some npid => { mapping with parameter_id := some npid }
      | none => mapping
    { m1 with card_id := dc_card_id })

/-- The dashcard-copying loop of `copy_dashboard_tab`
(src/server.py lines 1964-1990): one fresh strictly-decreasing id per
source dashcard, tab reference set to the new tab, grid/visualization
fields carried over with the source's `.get` defaults. -/
def copy_dashcards (param_id_mapping : List (Option String × String))
    (ntid : Int) : Int → List Dashcard → List Dashcard
  | _, [] => []
  | nid, dc :: rest =>
      { id := some nid,
        card_id := dc.card_id,
        dashboard_tab_id := some ntid,
        row := some (dc.row.getD 0),
        col := some (dc.col.getD 0),
        size_x := some (dc.size_x.getD 4),
        size_y := some (dc.size_y.getD 3),
        visualization_settings := some (dc.visualization_settings.getD []),
        parameter_mappings :=
          some (copy_mappings param_id_mapping dc.card_id
            (dc.parameter_mappings.getD [])) }
      :: copy_dashcards param_id_mapping ntid (nid - 1) rest

/-- The write payload of `copy_dashboard_tab` (src/server.py lines
1993-2002); `parameters = none` means the `parameters` key is absent. -/
structure CopyPayload where
  tabs : List Tab
  dashcards : List Dashcard
  parameters : Option (List Param)

/-- Python `a or b` on an optional string. -/
def pyOrStr (a : Option String) (b : String) : String :=
  match a with
  | some s => if s = "" then b else s
  | none => b

/-- `copy_dashboard_tab` (src/server.py lines 1891-2002), as the write
payload it issues against the target dashboard; `none` models the
not-found error raised when the source tab is absent. -/
def copy_dashboard_tab (source_dash target_dash : Dashboard) (tab_id : Int)
    (new_tab_name : Option String) (include_filters : Bool) :
    Option CopyPayload :=
  match source_dash.tabs.find? (fun t => t.id == some tab_id) with
  | none => none
  | some source_tab =>
    let tab_name := pyOrStr new_tab_name (source_tab.name.getD "Copied Tab")
    let tab_dashcards :=
      source_dash.dashcards.filter (fun dc => dc.dashboard_tab_id == some tab_id)
    let ntid := new_tab_id target_dash.tabs
    let new_tab : Tab := { id := some ntid, name := some tab_name }
    let used := used_param_ids tab_dashcards
    let pa :=
      if include_filters && !used.isEmpty then
        copy_params source_dash.parameters used
          (target_dash.parameters.map (fun p => p.id))
      else ([], [])
    let new_dashcards :=
      copy_dashcards pa.2 ntid (next_dc_id target_dash.dashcards) tab_dashcards
    some { tabs := target_dash.tabs ++ [new_tab],
           dashcards := target_dash.dashcards ++ new_dashcards,
           parameters :=
             if !pa.1.isEmpty then some (target_dash.parameters ++ pa.1)
             else none }

theorem truthyList_eq_isSome {α : Type} (o : Option (List α)) (h : o ≠ some []) :
    truthyList o = o.isSome := by
  cases o with
  | none => rfl
  | some l =>
    cases l with
    | nil => exact absurd rfl h
    | cons a as => rfl

theorem truthyInt_eq_isSome (o : Option Int) (h : o ≠ some 0) :
    truthyInt o = o.isSome := by
  cases o with
  | none => rfl
  | some n =>
    have hn : n ≠ 0 := by
      intro h0
      exact h (by rw [h0])
    simp [truthyInt, hn]

/-- Claim C4: for identical builder inputs, the run-without-saving path and
the save-as-card path construct identical MBQL query documents. -/
theorem c4_builders_identical (st : Int) (ag br fl ob : Option (List MVal))
    (lim : Option Int) (ex : Option (List (String × MVal)))
    (jn fs : Option (List MVal)) :
    execute_mbql_query st ag br fl ob lim ex jn fs
      = create_mbql_card st ag br fl ob lim ex jn fs := rfl

/-- Claim C3: for every presence/absence combination of the optional
builder inputs (each supplied input being a truthy value: a nonempty
list/map, a nonzero limit), the built query contains exactly
`source-table` plus the keys whose input was supplied, and no key of an
absent input is emitted. -/
theorem c3_keys_exact_iff_supplied (st : Int) (ag br fl ob : Option (List MVal))
    (lim : Option Int) (ex : Option (List (String × MVal)))
    (jn fs : Option (List MVal))
    (hag : ag ≠ some []) (hbr : br ≠ some []) (hfl : fl ≠ some [])
    (hob : ob ≠ some []) (hlim : lim ≠ some 0) (hex : ex ≠ some [])
    (hjn : jn ≠ some []) (hfs : fs ≠ some []) :
    (execute_mbql_query st ag br fl ob lim ex jn fs).map Prod.fst
      = ["source-table"]
        ++ (if ag.isSome then ["aggregation"] else [])
        ++ (if br.isSome then ["breakout"] else [])
        ++ (if fl.isSome then ["filter"] else [])
        ++ (if ob.isSome then ["order-by"] else [])
        ++ (if lim.isSome then ["limit"] else [])
        ++ (if ex.isSome then ["expressions"] else [])
        ++ (if jn.isSome then ["joins"] else [])
        ++ (if fs.isSome then ["fields"] else []) := by
  simp only [execute_mbql_query, truthyList_eq_isSome _ hag,
    truthyList_eq_isSome _ hbr, truthyList_eq_isSome _ hfl,
    truthyList_eq_isSome _ hob, truthyInt_eq_isSome _ hlim,
    truthyList_eq_isSome _ hex, truthyList_eq_isSome _ hjn,
    truthyList_eq_isSome _ hfs, List.map_append,
    apply_ite (List.map (Prod.fst : String × MVal → String)),
    List.map_cons, List.map_nil]

theorem c3_keys_exact_iff_supplied_witness :
    (execute_mbql_query 7 (some [MVal.list [MVal.str "count"]]) none none none
        (some 10) none none (some [MVal.list [MVal.str "f"]])).map Prod.fst
      = ["source-table", "aggregation", "limit", "fields"] := by
  have h := c3_keys_exact_iff_supplied 7 (some [MVal.list [MVal.str "count"]])
    none none none (some 10) none none (some [MVal.list [MVal.str "f"]])
    (by simp) (by simp) (by simp) (by simp) (by simp) (by simp) (by simp)
    (by simp)
  simpa using h

/-- Claim C9: the metric wrapper round-trips.  Wrapping tags the clause
with `aggregation-options`, keeps the original aggregation as the second
element and sets both name and display-name; renaming an already-wrapped
clause changes only the name/display-name pair (the inner clause is
byte-identical); renaming an unwrapped clause behaves as wrapping. -/
theorem c9_wrapper_roundtrip (agg : MVal) (nm nm2 : String)
    (tag0 : MVal) (rest0 : List MVal)
    (hun : tag0.isStr "aggregation-options" = false) :
    named_aggregation agg nm
      = MVal.list [MVal.str "aggregation-options", agg,
          MVal.map [("name", MVal.str nm), ("display-name", MVal.str nm)]]
    ∧ update_metric_rename (named_aggregation agg nm) nm2
        = some (named_aggregation agg nm2)
    ∧ update_metric_rename (MVal.list (tag0 :: rest0)) nm2
        = some (named_aggregation (MVal.list (tag0 :: rest0)) nm2) := by
  refine ⟨rfl, ?_, ?_⟩
  · rfl
  · simp [update_metric_rename, pyTruthyVal, hun]

theorem c9_wrapper_roundtrip_witness :
    update_metric_rename (MVal.list [MVal.str "sum", MVal.num 5]) "Rev2"
      = some (named_aggregation (MVal.list [MVal.str "sum", MVal.num 5]) "Rev2") :=
  (c9_wrapper_roundtrip (MVal.num 0) "x" "Rev2" (MVal.str "sum") [MVal.num 5]
    (by decide)).2.2

theorem search_step_zero_eq_none (t : Int) :
    search_step t (some 0) = search_step t none := by
  funext acc m
  simp [search_step, truthyInt]

/-- Claim C10: passing database_id = 0 disables the database filter
entirely; the result is the same as omitting database_id. -/
theorem c10_zero_database_id_disables_filter (all_cards : List Card)
    (table_id : Int) :
    search_metrics_for_table all_cards table_id (some 0)
      = search_metrics_for_table all_cards table_id none := by
  simp only [search_metrics_for_table, search_step_zero_eq_none]

/-- Claim C8: remove_card_from_dashboard errors exactly when the given id
is absent from the fetched dashcard list (no write is issued then, which
the embedding models as returning no written list), and otherwise the
written list is the fetched list with exactly the matching dashcards
excluded. -/
theorem c8_remove_not_found (existing_dashcards : List Dashcard)
    (dashcard_id : Int) :
    ((∃ e, remove_card_from_dashboard existing_dashcards dashcard_id
        = Except.error e)
      ↔ ∀ dc ∈ existing_dashcards, dc.id ≠ some dashcard_id)
    ∧ (∀ l, remove_card_from_dashboard existing_dashcards dashcard_id
          = Except.ok l →
        l = existing_dashcards.filter (fun dc => !(dc.id == some dashcard_id))) := by
  constructor
  · constructor
    · intro ⟨e, he⟩ dc hdc
      simp only [remove_card_from_dashboard] at he
      split at he
      · rename_i hlen
        rw [List.filter_length_eq_length] at hlen
        have := hlen dc hdc
        simp at this
        exact this
      · exact absurd he (by simp)
    · intro hall
      refine ⟨"Dashcard not found on dashboard", ?_⟩
      simp only [remove_card_from_dashboard]
      have hlen : (existing_dashcards.filter
          (fun dc => !(dc.id == some dashcard_id))).length
            = existing_dashcards.length := by
        rw [List.filter_length_eq_length]
        intro dc hdc
        simp [hall dc hdc]
      simp [hlen]
  · intro l hl
    simp only [remove_card_from_dashboard] at hl
    split at hl
    · exact absurd hl (by simp)
    · exact (Except.ok.inj hl).symm

theorem c8_remove_not_found_witness :
    (∃ e, remove_card_from_dashboard [] 5 = Except.error e)
    ∧ ([] : List Dashcard)
        = List.filter (fun dc => !(dc.id == some 5)) [{ id := some 5 }] :=
  ⟨(c8_remove_not_found [] 5).1.mpr (by simp),
   (c8_remove_not_found [{ id := some 5 }] 5).2 [] rfl⟩

theorem search_step_acc (t : Int) (d : Option Int) (acc : List MetricSummary)
    (m : Card) : search_step t d acc m = acc ++ search_step t d [] m := by
  simp only [search_step]
  split
  · split
    · simp
    · simp
  · simp

theorem search_foldl_acc (t : Int) (d : Option Int) (l : List Card)
    (acc : List MetricSummary) :
    l.foldl (search_step t d) acc = acc ++ l.foldl (search_step t d) [] := by
  induction l generalizing acc with
  | nil => simp
  | cons c rest ih =>
    simp only [List.foldl_cons]
    rw [search_step_acc, ih, ih (search_step t d [] c)]
    simp

/-- The match predicate stated by the spec for metric discovery: tagged as
a metric, stored source-table equal to the requested table, and, when a
database filter is given, stored database equal to it. -/
def metric_matches (table_id : Int) (database_id : Option Int) (c : Card) :
    Bool :=
  c.type == some "metric"
  && ((c.dataset_query.getD {}).query.getD {}).source_table == some table_id
  && (match database_id with
      | none => true
      | some d => (c.dataset_query.getD {}).database == some d)

theorem search_step_emit (table_id : Int) (database_id : Option Int)
    (hdb : database_id ≠ some 0) (c : Card)
    (hm : (c.type == some "metric") = true) :
    search_step table_id database_id [] c
      = (if metric_matches table_id database_id c
         then [metric_summary c ((c.dataset_query.getD {}).query.getD {})]
         else []) := by
  by_cases hsrc : (((c.dataset_query.getD {}).query.getD {}).source_table
      == some table_id) = true
  · cases database_id with
    | none => simp [search_step, metric_matches, hm, hsrc, truthyInt]
    | some k =>
      have hk : k ≠ 0 := by
        intro h0
        exact hdb (by rw [h0])
      by_cases hdbm : ((c.dataset_query.getD {}).database == some k) = true
      · have hdbm2 : (c.dataset_query.getD {}).database = some k := by
          simpa using hdbm
        simp [search_step, metric_matches, hm, hsrc, hdbm, hdbm2, truthyInt, hk]
      · have hdbm' : ((c.dataset_query.getD {}).database == some k) = false := by
          simpa using hdbm
        have hdbm2 : ¬ (c.dataset_query.getD {}).database = some k := by
          simpa using hdbm
        simp [search_step, metric_matches, hm, hsrc, hdbm', hdbm2, truthyInt, hk]
  · have hsrc' : (((c.dataset_query.getD {}).query.getD {}).source_table
        == some table_id) = false := by simpa using hsrc
    simp [search_step, metric_matches, hsrc']

/-- Claim C7: metric discovery keeps exactly the metric-tagged cards whose
stored source-table equals table_id (and stored database equals a given
nonzero database_id); the aggregation operator tag is the first element of
the first aggregation clause, "unknown" when absent or malformed; and an
empty result is returned, not an error, when nothing matches. -/
theorem c7_search_metrics_exact (cards : List Card) (table_id : Int)
    (database_id : Option Int) (hdb : database_id ≠ some 0) :
    search_metrics_for_table cards table_id database_id
      = (cards.filter (metric_matches table_id database_id)).map
          (fun c => metric_summary c ((c.dataset_query.getD {}).query.getD {}))
    ∧ ((∀ c ∈ cards, metric_matches table_id database_id c = false) →
        search_metrics_for_table cards table_id database_id = [])
    ∧ (∀ q : MQuery,
        (q.aggregation = none ∨ q.aggregation = some [] ∨
          ∃ cs, q.aggregation = some ([] :: cs)) →
        aggregation_type q = MVal.str "unknown")
    ∧ (∀ (q : MQuery) (a : MVal) (cl : List MVal) (cs : List (List MVal)),
        q.aggregation = some ((a :: cl) :: cs) → aggregation_type q = a) := by
  have main : ∀ cs : List Card,
      search_metrics_for_table cs table_id database_id
        = (cs.filter (metric_matches table_id database_id)).map
            (fun c => metric_summary c
              ((c.dataset_query.getD {}).query.getD {})) := by
    intro cs
    induction cs with
    | nil => rfl
    | cons c rest ih =>
      by_cases hm : (c.type == some "metric") = true
      · have h1 : search_metrics_for_table (c :: rest) table_id database_id
            = search_step table_id database_id [] c
              ++ search_metrics_for_table rest table_id database_id := by
          simp only [search_metrics_for_table, List.filter_cons, hm, if_true,
            List.foldl_cons]
          rw [search_foldl_acc]
        rw [h1, search_step_emit table_id database_id hdb c hm, ih]
        by_cases hmm : metric_matches table_id database_id c = true
        · simp [List.filter_cons, hmm]
        · have hmm' : metric_matches table_id database_id c = false := by
            simpa using hmm
          simp [List.filter_cons, hmm']
      · have hm' : (c.type == some "metric") = false := by simpa using hm
        have hmm' : metric_matches table_id database_id c = false := by
          simp [metric_matches, hm']
        have h1 : search_metrics_for_table (c :: rest) table_id database_id
            = search_metrics_for_table rest table_id database_id := by
          simp [search_metrics_for_table, List.filter_cons, hm']
        rw [h1, ih]
        simp [List.filter_cons, hmm']
  refine ⟨main cards, ?_, ?_, ?_⟩
  · intro hall
    rw [main cards]
    have : cards.filter (metric_matches table_id database_id) = [] := by
      simp only [List.filter_eq_nil_iff]
      intro c hc
      simp [hall c hc]
    rw [this]
    rfl
  · intro q hq
    rcases hq with h | h | ⟨cs, h⟩ <;> simp [aggregation_type, h]
  · intro q a cl cs h
    simp [aggregation_type, h]

/-- A concrete metric card on table 42 in database 4, for the C7 witness. -/
def cardMetric42 : Card :=
  { type := some "metric", id := some 9, name := some "Revenue",
    description := some "total", collection_id := some 3,
    dataset_query := some
      { database := some 4,
        query := some
          { source_table := some 42,
            aggregation := some [[MVal.str "sum", MVal.num 200]],
            filter := none } } }

/-- A concrete metric card on a different table, for the C7 witness. -/
def cardMetric9 : Card :=
  { type := some "metric", id := some 11, name := some "Other",
    description := none, collection_id := none,
    dataset_query := some
      { database := some 4,
        query := some { source_table := some 9 } } }

theorem c7_search_metrics_exact_witness :
    search_metrics_for_table [cardMetric42, cardMetric9] 42 (some 4)
      = [{ id := some 9, name := some "Revenue", description := some "total",
           aggregation_type := MVal.str "sum", has_filter := false,
           collection_id := some 3 }] := by
  have h := (c7_search_metrics_exact [cardMetric42, cardMetric9] 42 (some 4)
    (by simp)).1
  rw [h]
  rfl

theorem mem_zip_map {α β : Type} (l : List α) (f : α → β) (pr : α × β)
    (h : pr ∈ l.zip (l.map f)) : pr.2 = f pr.1 := by
  induction l with
  | nil => simp at h
  | cons a as ih =>
    simp only [List.map_cons, List.zip_cons_cons, List.mem_cons] at h
    rcases h with h | h
    · simp [h]
    · exact ih h

theorem copy_mappings_fields (param_id_mapping : List (Option String × String))
    (cid : Option Int) (ms : List PMapping) :
    ∀ mp ∈ ms.zip (copy_mappings param_id_mapping cid ms),
      mp.2.payload = mp.1.payload
      ∧ mp.2.card_id = cid
      ∧ mp.2.parameter_id =
          (match lookup_param_id param_id_mapping mp.1.parameter_id with
           | some npid => some npid
           | none => mp.1.parameter_id) := by
  intro mp hmp
  have h2 := mem_zip_map ms _ mp hmp
  rw [h2]
  cases hl : lookup_param_id param_id_mapping mp.1.parameter_id with
  | none => simp [hl]
  | some npid => simp [hl]

/-- Claim C2: every copied dashcard carries over its card reference, grid
position/size and visualization settings (with the source defaults at
missing keys), points at the freshly allocated tab id, rewrites each
parameter mapping's parameter id through the old-to-new mapping (entries
not in the mapping pass through unchanged, other mapping fields are
preserved), and re-pins each mapping's card reference to the dashcard's
own card reference. -/
theorem c2_copy_dashcards_fields (param_id_mapping : List (Option String × String))
    (ntid start : Int) (tab_dashcards : List Dashcard) :
    ∀ pr ∈ tab_dashcards.zip
        (copy_dashcards param_id_mapping ntid start tab_dashcards),
      pr.2.card_id = pr.1.card_id
      ∧ pr.2.dashboard_tab_id = some ntid
      ∧ pr.2.row = some (pr.1.row.getD 0)
      ∧ pr.2.col = some (pr.1.col.getD 0)
      ∧ pr.2.size_x = some (pr.1.size_x.getD 4)
      ∧ pr.2.size_y = some (pr.1.size_y.getD 3)
      ∧ pr.2.visualization_settings = some (pr.1.visualization_settings.getD [])
      ∧ ∀ mp ∈ (pr.1.parameter_mappings.getD []).zip
            (pr.2.parameter_mappings.getD []),
          mp.2.payload = mp.1.payload
          ∧ mp.2.card_id = pr.1.card_id
          ∧ mp.2.parameter_id =
              (match lookup_param_id param_id_mapping mp.1.parameter_id with
               | some npid => some npid
               | none => mp.1.parameter_id) := by
  induction tab_dashcards generalizing start with
  | nil => intro pr h; simp at h
  | cons dc rest ih =>
    intro pr hpr
    simp only [copy_dashcards, List.zip_cons_cons, List.mem_cons] at hpr
    rcases hpr with h | h
    · subst h
      exact ⟨rfl, rfl, rfl, rfl, rfl, rfl, rfl,
        copy_mappings_fields param_id_mapping dc.card_id
          (dc.parameter_mappings.getD [])⟩
    · exact ih (start - 1) pr h

/-- A concrete source dashcard for the C2 witness. -/
def dcW : Dashcard :=
  { id := some 7, card_id := some 70, dashboard_tab_id := some 2,
    row := some 1, col := some 2, size_x := some 6, size_y := some 4,
    parameter_mappings :=
      some [{ parameter_id := some "p1", card_id := some 99, payload := 5 }] }

/-- The dashcard produced by copying `dcW`, for the C2 witness. -/
def ndcW : Dashcard :=
  (copy_dashcards [(some "p1", "p1_copy")] (-1) (-5) [dcW]).headD {}

/-- The copied mapping of `ndcW`, for the C2 witness. -/
def nmpW : PMapping := (ndcW.parameter_mappings.getD []).headD {}

theorem c2_copy_dashcards_fields_witness :
    ndcW.card_id = dcW.card_id ∧ ndcW.dashboard_tab_id = some (-1)
    ∧ ndcW.row = some 1
    ∧ nmpW.parameter_id = some "p1_copy" ∧ nmpW.card_id = some 70
    ∧ nmpW.payload = 5 := by
  have h := c2_copy_dashcards_fields [(some "p1", "p1_copy")] (-1) (-5) [dcW]
    (dcW, ndcW) (List.mem_singleton.mpr rfl)
  have h2 := h.2.2.2.2.2.2.2
    ({ parameter_id := some "p1", card_id := some 99, payload := 5 }, nmpW)
    (List.mem_singleton.mpr rfl)
  exact ⟨h.1, h.2.1, h.2.2.1, h2.2.2, h2.2.1, h2.1⟩

theorem foldl_min_le_init (l : List Int) (a : Int) : l.foldl min a ≤ a := by
  induction l generalizing a with
  | nil => simp
  | cons x xs ih =>
    simp only [List.foldl_cons]
    exact le_trans (ih (min a x)) (min_le_left a x)

theorem foldl_min_le_mem (l : List Int) (a x : Int) (hx : x ∈ l) :
    l.foldl min a ≤ x := by
  induction l generalizing a with
  | nil => simp at hx
  | cons y ys ih =>
    simp only [List.foldl_cons]
    rcases List.mem_cons.mp hx with h | h
    · subst h
      exact le_trans (foldl_min_le_init ys (min a x)) (min_le_right a x)
    · exact ih (min a y) h

theorem pyMin_le_mem (l : List Int) (d x : Int) (hx : x ∈ l) : pyMin l d ≤ x := by
  cases l with
  | nil => simp at hx
  | cons y ys =>
    simp only [pyMin]
    rcases List.mem_cons.mp hx with h | h
    · subst h
      exact foldl_min_le_init ys x
    · exact foldl_min_le_mem ys y x h

/-- The dashcard id sequence the spec describes: a starting value followed
by values strictly decreasing by one. -/
def idList (start : Int) : Nat → List (Option Int)
  | 0 => []
  | n + 1 => some start :: idList (start - 1) n

theorem copy_dashcards_ids (param_id_mapping : List (Option String × String))
    (ntid start : Int) (dcs : List Dashcard) :
    (copy_dashcards param_id_mapping ntid start dcs).map Dashcard.id
      = idList start dcs.length := by
  induction dcs generalizing start with
  | nil => rfl
  | cons dc rest ih => simp [copy_dashcards, idList, ih]

theorem idList_mem (start : Int) (n : Nat) (x : Option Int)
    (hx : x ∈ idList start n) : ∃ k : Nat, k < n ∧ x = some (start - k) := by
  induction n generalizing start with
  | zero => simp [idList] at hx
  | succ m ih =>
    simp only [idList, List.mem_cons] at hx
    rcases hx with h | h
    · exact ⟨0, by omega, by simpa using h⟩
    · obtain ⟨k, hk, he⟩ := ih (start - 1) h
      refine ⟨k + 1, by omega, ?_⟩
      rw [he]
      congr 1
      push_cast
      ring

theorem idList_nodup (start : Int) (n : Nat) : (idList start n).Nodup := by
  induction n generalizing start with
  | zero => simp [idList]
  | succ m ih =>
    simp only [idList, List.nodup_cons]
    refine ⟨?_, ih (start - 1)⟩
    intro hmem
    obtain ⟨k, hk, he⟩ := idList_mem (start - 1) m _ hmem
    have : start = start - 1 - (k : Int) := by simpa using he
    omega

/-- Claim C5: the new tab id equals min(smallest existing target tab id − 1,
−1); the new dashcard ids start at min(smallest existing target dashcard id
− 1, −1) and strictly decrease by one per copied dashcard in source order;
every freshly allocated id is strictly negative and distinct from (indeed
strictly below) every id already present on the target. -/
theorem c5_id_allocation (target_tabs : List Tab)
    (target_dashcards : List Dashcard)
    (param_id_mapping : List (Option String × String))
    (src_dashcards : List Dashcard) :
    new_tab_id target_tabs
        = min (pyMin (target_tabs.map (fun t => t.id.getD 0)) 0 - 1) (-1)
    ∧ new_tab_id target_tabs ≤ -1
    ∧ (∀ t ∈ target_tabs, new_tab_id target_tabs < t.id.getD 0)
    ∧ (copy_dashcards param_id_mapping (new_tab_id target_tabs)
          (next_dc_id target_dashcards) src_dashcards).map Dashcard.id
        = idList (next_dc_id target_dashcards) src_dashcards.length
    ∧ (idList (next_dc_id target_dashcards) src_dashcards.length).Nodup
    ∧ (∀ x ∈ idList (next_dc_id target_dashcards) src_dashcards.length,
        ∃ n : Int, x = some n ∧ n ≤ -1
          ∧ ∀ dc ∈ target_dashcards, n < dc.id.getD 0) := by
  refine ⟨rfl, min_le_right _ _, ?_,
    copy_dashcards_ids param_id_mapping (new_tab_id target_tabs)
      (next_dc_id target_dashcards) src_dashcards,
    idList_nodup (next_dc_id target_dashcards) src_dashcards.length, ?_⟩
  · intro t ht
    have h1 : pyMin (target_tabs.map (fun t => t.id.getD 0)) 0 ≤ t.id.getD 0 :=
      pyMin_le_mem _ _ _ (List.mem_map_of_mem _ ht)
    have h2 : new_tab_id target_tabs
        ≤ pyMin (target_tabs.map (fun t => t.id.getD 0)) 0 - 1 :=
      min_le_left _ _
    omega
  · intro x hx
    obtain ⟨k, hk, he⟩ := idList_mem _ _ x hx
    refine ⟨next_dc_id target_dashcards - k, he, ?_, ?_⟩
    · have h2 : next_dc_id target_dashcards ≤ -1 := min_le_right _ _
      omega
    · intro dc hdc
      have h1 : pyMin (target_dashcards.map (fun d => d.id.getD 0)) 0
          ≤ dc.id.getD 0 :=
        pyMin_le_mem _ _ _ (List.mem_map_of_mem _ hdc)
      have h2 : next_dc_id target_dashcards
          ≤ pyMin (target_dashcards.map (fun d => d.id.getD 0)) 0 - 1 :=
        min_le_left _ _
      omega

theorem c5_id_allocation_witness :
    new_tab_id [{ id := some 3, name := some "A" }] < 3
    ∧ (-1 : Int) < 5 := by
  have h := c5_id_allocation [{ id := some 3, name := some "A" }]
    [{ id := some 5 }] [] [{}]
  refine ⟨h.2.2.1 { id := some 3, name := some "A" } (by simp), ?_⟩
  obtain ⟨n, hn1, hn2, hn3⟩ := h.2.2.2.2.2 (some (-1)) (by decide)
  have hne : n = -1 := by simpa using hn1.symm
  have := hn3 { id := some 5 } (by simp)
  rw [hne] at this
  exact this

theorem take_of_ite_params (tp X : List Param) (c : Bool) (ps : List Param)
    (h : (if c then some (tp ++ X) else none) = some ps) :
    ps.take tp.length = tp := by
  split at h
  · rw [(Option.some.inj h).symm]
    exact List.take_left _ _
  · exact absurd h (by simp)

/-- Claim C6: copy_dashboard_tab is additive and non-destructive on the
target: the written tab, dashcard and (when present) parameter lists start
with the fetched target lists unchanged, and with include_filters = False
the payload has no parameters field at all. -/
theorem c6_copy_additive (source_dash target_dash : Dashboard) (tab_id : Int)
    (new_tab_name : Option String) (include_filters : Bool) (p : CopyPayload)
    (h : copy_dashboard_tab source_dash target_dash tab_id new_tab_name
        include_filters = some p) :
    p.tabs.take target_dash.tabs.length = target_dash.tabs
    ∧ p.dashcards.take target_dash.dashcards.length = target_dash.dashcards
    ∧ (∀ ps, p.parameters = some ps →
        ps.take target_dash.parameters.length = target_dash.parameters)
    ∧ (include_filters = false → p.parameters = none) := by
  cases hf : source_dash.tabs.find? (fun t => t.id == some tab_id) with
  | none =>
    simp only [copy_dashboard_tab, hf] at h
    exact absurd h (by simp)
  | some st =>
    simp only [copy_dashboard_tab, hf] at h
    have hp := Option.some.inj h
    subst hp
    refine ⟨List.take_left _ _, List.take_left _ _, ?_, ?_⟩
    · intro ps hps
      exact take_of_ite_params _ _ _ ps hps
    · intro hif
      subst hif
      simp

/-- Source dashboard for the C6 witness: one tab, nothing else. -/
def srcW6 : Dashboard := { tabs := [{ id := some 1, name := some "A" }] }

/-- The payload written by copying tab 1 of `srcW6` onto an empty target
with include_filters = False, for the C6 witness. -/
def pW6 : CopyPayload :=
  (copy_dashboard_tab srcW6 {} 1 none false).getD ⟨[], [], none⟩

theorem c6_copy_additive_witness :
    pW6.tabs.take 0 = ([] : List Tab) ∧ pW6.parameters = none := by
  have h := c6_copy_additive srcW6 {} 1 none false pW6 rfl
  exact ⟨h.1, h.2.2.2 rfl⟩

/-- Source dashboard for the C1 failing input: tab 2 carries one dashcard
whose mappings reference parameters p1 and p1_copy, both present in the
source parameter list. -/
def srcC1 : Dashboard :=
  { tabs := [{ id := some 2, name := some "Tab" }],
    dashcards := [{ id := some 10, card_id := some 77,
                    dashboard_tab_id := some 2,
                    parameter_mappings := some
                      [{ parameter_id := some "p1", card_id := some 77 },
                       { parameter_id := some "p1_copy", card_id := some 77 }] }],
    parameters := [{ id := some "p1", payload := 1 },
                   { id := some "p1_copy", payload := 2 }] }

/-- Target dashboard for the C1 failing input: its parameter list already
contains p1 (and only p1). -/
def tgtC1 : Dashboard :=
  { tabs := [], dashcards := [],
    parameters := [{ id := some "p1", payload := 3 }] }

/-- Claim C1 (refuted at a concrete input): copying tab 2 of `srcC1` onto
`tgtC1` with filter copying produces a write payload whose parameter ids
are p1, p1_copy, p1_copy.  The source parameter p1 collides with the
target's p1 and is renamed to p1_copy, but the set of taken identifiers is
computed once and never extended, so the source parameter named p1_copy is
then copied as-is and the written parameter list is not duplicate-free. -/
theorem c1_duplicate_param_ids :
    ((copy_dashboard_tab srcC1 tgtC1 2 none true).map
        (fun p => (p.parameters.getD []).map Param.id))
      = some [some "p1", some "p1_copy", some "p1_copy"]
    ∧ ¬ (([some "p1", some "p1_copy", some "p1_copy"] :
          List (Option String)).Nodup) := by
  exact ⟨by decide, by decide⟩
